import Mathlib

/-!
Verification of the SpeedTestGo session-lifecycle engine
(`internal/handlers/download.go`) against its specification.

The Go handler state is embedded shallowly:
* the `sessions` map and the rate limiter's `lastAccessMap` become
  association lists with Go-map insert/erase/lookup semantics;
* the filesystem becomes an association list from paths to byte lists,
  and the success of `os.Remove` is an environment oracle
  `removeOk : String → Bool`;
* wall-clock instants are integers counting seconds, elapsed transfer
  time is a rational number of seconds;
* the IEEE-754 result of the speed division is modelled by `FloatVal`,
  which separates the finite case from `+Inf` and `NaN`;
* SHA-256 is an external collaborator, kept abstract as a parameter
  `sha256Hex : List ℕ → String`.
-/

namespace SpeedTestGo

/-- Go-map lookup on an association list (first binding wins). -/
def lookupA {α : Type} (m : List (String × α)) (k : String) : Option α :=
  match m with
  | [] => none
  | (k', v) :: rest => if k' = k then some v else lookupA rest k

/-- Go-map insert/overwrite on an association list. -/
def insertA {α : Type} (m : List (String × α)) (k : String) (v : α) :
    List (String × α) :=
  match m with
  | [] => [(k, v)]
  | (k', v') :: rest =>
      if k' = k then (k, v) :: rest else (k', v') :: insertA rest k v

/-- Go-map `delete` on an association list. -/
def eraseA {α : Type} (m : List (String × α)) (k : String) :
    List (String × α) :=
  match m with
  | [] => []
  | (k', v') :: rest =>
      if k' = k then eraseA rest k else (k', v') :: eraseA rest k

theorem lookupA_insertA_self {α : Type} (m : List (String × α)) (k : String)
    (v : α) : lookupA (insertA m k v) k = some v := by
  induction m with
  | nil => simp [insertA, lookupA]
  | cons hd tl ih =>
      obtain ⟨k', v'⟩ := hd
      by_cases h : k' = k
      · simp [insertA, lookupA, h]
      · simp [insertA, lookupA, h, ih]

theorem lookupA_insertA_ne {α : Type} (m : List (String × α)) (k k' : String)
    (v : α) (h : k ≠ k') : lookupA (insertA m k v) k' = lookupA m k' := by
  induction m with
  | nil => simp [insertA, lookupA, h]
  | cons hd tl ih =>
      obtain ⟨k₀, v₀⟩ := hd
      by_cases h₀ : k₀ = k
      · subst h₀
        simp [insertA, lookupA, h]
      · by_cases h₁ : k₀ = k'
        · subst h₁
          simp [insertA, lookupA, h₀, Ne.symm h]
        · simp [insertA, lookupA, h₀, h₁, ih]

theorem lookupA_eraseA_self {α : Type} (m : List (String × α)) (k : String) :
    lookupA (eraseA m k) k = none := by
  induction m with
  | nil => simp [eraseA, lookupA]
  | cons hd tl ih =>
      obtain ⟨k', v'⟩ := hd
      by_cases h : k' = k
      · simp [eraseA, h, ih]
      · simp [eraseA, lookupA, h, ih]

theorem lookupA_eraseA_ne {α : Type} (m : List (String × α)) (k k' : String)
    (h : k ≠ k') : lookupA (eraseA m k) k' = lookupA m k' := by
  induction m with
  | nil => simp [eraseA]
  | cons hd tl ih =>
      obtain ⟨k₀, v₀⟩ := hd
      by_cases h₀ : k₀ = k
      · subst h₀
        simp [eraseA, lookupA, h, ih]
      · simp [eraseA, lookupA, h₀, ih]

/-- The IEEE-754 value stored in `DownloadSpeedMbps`: either a finite
rational, `+Inf` (positive dividend over zero), or `NaN` (zero over zero). -/
inductive FloatVal : Type
  | finite (q : ℚ)
  | posInf
  | nan
deriving DecidableEq

/-- `Session` from download.go: information about one test session. -/
structure Session : Type where
  filePath : String
  expectedHash : String
  hashAlgorithm : String
  fileSize : ℤ
  createdAt : ℤ
  downloadSpeedMbps : FloatVal
deriving DecidableEq

/-- The mutable state of `DownloadHandler`, together with the local
filesystem the handler reads and writes (`tmpdata/…` artifact files). -/
structure HandlerState : Type where
  sessions : List (String × Session)
  lastAccessMap : List (String × ℤ)
  fs : List (String × List ℕ)
deriving DecidableEq

/-- `remoteAddr[:colonIndex]` where `colonIndex` is the last `:`
(`strings.LastIndex`); the list is returned whole when it has no colon. -/
def dropFromLastColon : List Char → List Char
  | [] => []
  | c :: rest =>
      if ':' ∈ rest then c :: dropFromLastColon rest
      else if c = ':' then []
      else c :: dropFromLastColon rest

/-- `getClientIP`: first entry of the X-Forwarded-For list, trimmed, when
the header is present; otherwise `RemoteAddr` with any port suffix
stripped. `forwarded = ""` models an absent header. -/
def getClientIP (forwarded remoteAddr : String) : String :=
  if forwarded ≠ "" then ((forwarded.splitOn ",").headD "").trim
  else String.mk (dropFromLastColon remoteAddr.data)

/-- The rate-limit cooldown, `10 * time.Second`, with instants counted in
seconds. -/
def cooldownSeconds : ℤ := 10

/-- `CheckRateLimit`: deny when an entry for the client exists and is less
than 10 seconds old; otherwise set the entry to `now` and admit.
Returns the admission verdict and the updated handler state. -/
def CheckRateLimit (now : ℤ) (clientIP : String) (st : HandlerState) :
    Bool × HandlerState :=
  match lookupA st.lastAccessMap clientIP with
  | some lastAccess =>
      if now - lastAccess < cooldownSeconds then (false, st)
      else (true, { st with lastAccessMap := insertA st.lastAccessMap clientIP now })
  | none => (true, { st with lastAccessMap := insertA st.lastAccessMap clientIP now })

/-- The `allowedSizes` map: size selector in MB ↦ size in bytes. -/
def allowedSizes (mb : ℤ) : Option ℤ :=
  if mb = 5 then some (5 * 1024 * 1024)
  else if mb = 10 then some (10 * 1024 * 1024)
  else if mb = 20 then some (20 * 1024 * 1024)
  else if mb = 50 then some (50 * 1024 * 1024)
  else if mb = 100 then some (100 * 1024 * 1024)
  else if mb = 200 then some (200 * 1024 * 1024)
  else if mb = 500 then some (500 * 1024 * 1024)
  else if mb = 1000 then some (1000 * 1024 * 1024)
  else none

/-- The 1 MB write buffer size of `generateRandomFile`. -/
def bufSize : ℕ := 1024 * 1024

/-- The write loop of `generateRandomFile`: while `written < size`, write
`min bufSize (size - written)` bytes drawn from the random stream.
`rand i` is the `i`-th random byte produced by `rand.Read` overall. -/
def genLoop (rand : ℕ → ℕ) (size : ℕ) : ℕ → List ℕ → List ℕ
  | written, acc =>
      if h : written < size then
        let toWrite := min bufSize (size - written)
        genLoop rand size (written + toWrite)
          (acc ++ (List.range toWrite).map (fun i => rand (written + i)))
      else acc
  termination_by written _ => size - written
  decreasing_by
    have hb : 0 < bufSize := by norm_num [bufSize]
    omega

/-- `generateRandomFile`: the byte content of the file created at `path`,
written in 1 MB chunks of random bytes until `size` bytes are on disk. -/
def generateRandomFile (rand : ℕ → ℕ) (size : ℕ) : List ℕ :=
  genLoop rand size 0 []

/-- `computeFileHash`: SHA-256 hex digest of the file's content, or an
error when the file cannot be opened. `sha256Hex` abstracts the
`crypto/sha256` + `encoding/hex` collaborators. -/
def computeFileHash (sha256Hex : List ℕ → String) (fs : List (String × List ℕ))
    (path : String) : Option String :=
  (lookupA fs path).map sha256Hex

/-- Body of `POST /download/init` (`DownloadInitRequest`). -/
structure DownloadInitRequest : Type where
  sizeMB : ℤ
deriving DecidableEq

/-- Response of `POST /download/init` (`DownloadInitResponse`). -/
structure DownloadInitResponse : Type where
  sessionID : String
  size : ℤ
  hashAlgorithm : String
  expectedHash : String
deriving DecidableEq

/-- Outcome of `InitDownload`, tagged with the Go handler's branch. -/
inductive InitResult : Type
  | rateLimited                        -- 429 Too Many Requests
  | badRequest                         -- 400, JSON body failed to decode
  | invalidSize                        -- 400, selector not in allowedSizes
  | internalError                      -- 500, generation or hashing failed
  | ok (resp : DownloadInitResponse)   -- 200
deriving DecidableEq

/-- `InitDownload`: rate-limit check, body decode (`none` = malformed
JSON), size validation, artifact generation under `tmpdata/<id>.bin`,
hashing, session registration, response. `sessionID` stands for the
fresh `uuid.New().String()` and `rand` for the `math/rand` stream. -/
def InitDownload (sha256Hex : List ℕ → String) (now : ℤ) (clientIP : String)
    (body : Option DownloadInitRequest) (sessionID : String) (rand : ℕ → ℕ)
    (st : HandlerState) : InitResult × HandlerState :=
  let checked := CheckRateLimit now clientIP st
  if checked.1 = false then (.rateLimited, checked.2)
  else
    match body with
    | none => (.badRequest, checked.2)
    | some req =>
        match allowedSizes req.sizeMB with
        | none => (.invalidSize, checked.2)
        | some size =>
            let filePath := "tmpdata/" ++ sessionID ++ ".bin"
            let content := generateRandomFile rand size.toNat
            let st₂ := { checked.2 with fs := insertA checked.2.fs filePath content }
            match computeFileHash sha256Hex st₂.fs filePath with
            | none => (.internalError, st₂)
            | some expectedHash =>
                let sess : Session :=
                  { filePath := filePath
                    expectedHash := expectedHash
                    hashAlgorithm := "sha256"
                    fileSize := size
                    createdAt := now
                    downloadSpeedMbps := .finite 0 }
                let st₃ := { st₂ with sessions := insertA st₂.sessions sessionID sess }
                (.ok { sessionID := sessionID, size := size,
                       hashAlgorithm := "sha256", expectedHash := expectedHash }, st₃)

/-- The IEEE-754 value of
`(float64(size) * 8) / (duration * 1024 * 1024)` for a nonnegative
duration: `+Inf` when a positive dividend meets a zero divisor, `NaN`
for zero over zero, the exact rational quotient otherwise. -/
def computeSpeed (size : ℤ) (duration : ℚ) : FloatVal :=
  if duration = 0 then (if size = 0 then .nan else .posInf)
  else .finite ((size * 8) / (duration * 1024 * 1024))

/-- Outcome of `DownloadData` (`GET /download/data`). -/
inductive DataResult : Type
  | badRequest               -- 400, "session_id is required"
  | notFound                 -- 404, "Invalid session_id"
  | internalError            -- 500, os.Open failed
  | ok (content : List ℕ)    -- 200, streamed artifact bytes
deriving DecidableEq

/-- HTTP status code written by each `DownloadData` branch. -/
def DataResult.status : DataResult → ℕ
  | .badRequest => 400
  | .notFound => 404
  | .internalError => 500
  | .ok _ => 200

/-- `DownloadData`: look up the session, open and stream the artifact,
then unconditionally store
`(fileSize * 8) / (duration * 1024 * 1024)` into the session.
`duration` is the measured wall-clock seconds of the transfer. -/
def DownloadData (sessionID : String) (duration : ℚ) (st : HandlerState) :
    DataResult × HandlerState :=
  if sessionID = "" then (.badRequest, st)
  else
    match lookupA st.sessions sessionID with
    | none => (.notFound, st)
    | some sess =>
        match lookupA st.fs sess.filePath with
        | none => (.internalError, st)
        | some content =>
            let sess' := { sess with downloadSpeedMbps := computeSpeed sess.fileSize duration }
            (.ok content, { st with sessions := insertA st.sessions sessionID sess' })

/-- Response of `GET /download/speed` (`SpeedResponse`). -/
structure SpeedResponse : Type where
  sessionID : String
  downloadSpeedMbps : FloatVal
deriving DecidableEq

/-- Outcome of `GetSpeed`. -/
inductive SpeedResult : Type
  | badRequest               -- 400, "session_id is required"
  | notFound                 -- 404, "Invalid session_id"
  | ok (resp : SpeedResponse)
deriving DecidableEq

/-- HTTP status code written by each `GetSpeed` branch. -/
def SpeedResult.status : SpeedResult → ℕ
  | .badRequest => 400
  | .notFound => 404
  | .ok _ => 200

/-- `GetSpeed`: report the stored `DownloadSpeedMbps` of the session.
Reads only the session map; mutates nothing. -/
def GetSpeed (sessionID : String) (st : HandlerState) :
    SpeedResult × HandlerState :=
  if sessionID = "" then (.badRequest, st)
  else
    match lookupA st.sessions sessionID with
    | none => (.notFound, st)
    | some sess =>
        (.ok { sessionID := sessionID, downloadSpeedMbps := sess.downloadSpeedMbps }, st)

/-- Body of `POST /download/verify` (`DownloadVerifyRequest`). -/
structure DownloadVerifyRequest : Type where
  sessionID : String
  computedHash : String
deriving DecidableEq

/-- Outcome of `VerifyDownload`. -/
inductive VerifyResult : Type
  | badRequest        -- 400, JSON body failed to decode
  | notFound          -- 404, "Invalid session_id"
  | removalFailed     -- 500, "File removal failed"
  | hashMismatch      -- 400, "Hash mismatch"
  | success           -- 200, {"status": "success"}
deriving DecidableEq

/-- HTTP status code written by each `VerifyDownload` branch. -/
def VerifyResult.status : VerifyResult → ℕ
  | .badRequest => 400
  | .notFound => 404
  | .removalFailed => 500
  | .hashMismatch => 400
  | .success => 200

/-- `VerifyDownload`: on an exact hash match, `os.Remove` the artifact
(success governed by the environment oracle `removeOk`) and, only after
a successful removal, delete the session; on mismatch, mutate nothing.
`body = none` models a malformed JSON body. -/
def VerifyDownload (removeOk : String → Bool)
    (body : Option DownloadVerifyRequest) (st : HandlerState) :
    VerifyResult × HandlerState :=
  match body with
  | none => (.badRequest, st)
  | some req =>
      match lookupA st.sessions req.sessionID with
      | none => (.notFound, st)
      | some sess =>
          if req.computedHash = sess.expectedHash then
            if removeOk sess.filePath then
              (.success,
               { st with fs := eraseA st.fs sess.filePath,
                         sessions := eraseA st.sessions req.sessionID })
            else (.removalFailed, st)
          else (.hashMismatch, st)

/-- The reaper's maximum session age, `time.Hour`, in seconds. -/
def maxAgeSeconds : ℤ := 3600

/-- One iteration of the cleanup loop's `for sessionID, sess := range
h.sessions` body: when the session is over an hour old, attempt to
`os.Remove` its artifact — a failure is only logged — and then delete
the session entry unconditionally. -/
def cleanupStep (now : ℤ) (removeOk : String → Bool) (st : HandlerState)
    (entry : String × Session) : HandlerState :=
  if now - entry.2.createdAt > maxAgeSeconds then
    let fs' := if removeOk entry.2.filePath then eraseA st.fs entry.2.filePath else st.fs
    { st with fs := fs', sessions := eraseA st.sessions entry.1 }
  else st

/-- One sweep of the `StartCleanup` goroutine under the handler lock:
the loop body applied to every entry of the session map. -/
def cleanupSweep (now : ℤ) (removeOk : String → Bool) (st : HandlerState) :
    HandlerState :=
  st.sessions.foldl (cleanupStep now removeOk) st

/-! ### Helper lemmas -/

theorem genLoop_length_le (rand : ℕ → ℕ) (size : ℕ) :
    ∀ (n written : ℕ) (acc : List ℕ), size - written ≤ n →
      (genLoop rand size written acc).length = acc.length + (size - written) := by
  intro n
  induction n with
  | zero =>
      intro written acc hle
      rw [genLoop]
      have : ¬ written < size := by omega
      simp [this]
      omega
  | succ n ih =>
      intro written acc hle
      rw [genLoop]
      by_cases h : written < size
      · have hb : 0 < bufSize := by norm_num [bufSize]
        simp only [h, dif_pos]
        rw [ih]
        · simp
          omega
        · omega
      · simp [h]
        omega

theorem generateRandomFile_length (rand : ℕ → ℕ) (size : ℕ) :
    (generateRandomFile rand size).length = size := by
  have := genLoop_length_le rand size size 0 [] (by omega)
  simpa [generateRandomFile] using this

theorem allowedSizes_spec (mb size : ℤ) (h : allowedSizes mb = some size) :
    size = mb * 1024 * 1024 := by
  unfold allowedSizes at h
  split_ifs at h with h5 h10 h20 h50 h100 h200 h500 h1000 <;> simp_all

theorem lookupA_some_mem {α : Type} (m : List (String × α)) (k : String)
    (v : α) (h : lookupA m k = some v) : (k, v) ∈ m := by
  induction m with
  | nil => simp [lookupA] at h
  | cons hd tl ih =>
      obtain ⟨k', v'⟩ := hd
      by_cases hk : k' = k
      · subst hk
        simp [lookupA] at h
        simp [h]
      · simp [lookupA, hk] at h
        simp [ih h]

/-! ### Concrete example states used by counterexamples and witnesses -/

/-- A session whose 1-byte artifact sits at `tmpdata/s.bin`. -/
def exSession : Session :=
  { filePath := "tmpdata/s.bin", expectedHash := "h", hashAlgorithm := "sha256",
    fileSize := 1, createdAt := 0, downloadSpeedMbps := .finite 0 }

/-- Handler state holding `exSession` under id `"s"`, its artifact on disk. -/
def exState : HandlerState :=
  { sessions := [("s", exSession)], lastAccessMap := [],
    fs := [("tmpdata/s.bin", [7])] }

/-! ### C6 — rate limiter admission -/

/-- C6: `CheckRateLimit` admits iff the identity has no recorded
admission or the recorded one is at least the 10-second cooldown old; on
admission the identity's timestamp becomes `now`, on denial the state is
untouched, and a later call made once the cooldown has elapsed is
admitted. -/
theorem C6_rate_limiter_admission (now : ℤ) (ip : String) (st : HandlerState) :
    ((CheckRateLimit now ip st).1 = true ↔
       lookupA st.lastAccessMap ip = none ∨
       ∃ t, lookupA st.lastAccessMap ip = some t ∧ cooldownSeconds ≤ now - t) ∧
    ((CheckRateLimit now ip st).1 = true →
       (CheckRateLimit now ip st).2 =
         { st with lastAccessMap := insertA st.lastAccessMap ip now }) ∧
    ((CheckRateLimit now ip st).1 = false → (CheckRateLimit now ip st).2 = st) ∧
    ((CheckRateLimit now ip st).1 = false →
       ∀ (now' t : ℤ), lookupA st.lastAccessMap ip = some t →
         cooldownSeconds ≤ now' - t →
         (CheckRateLimit now' ip (CheckRateLimit now ip st).2).1 = true) := by
  cases hl : lookupA st.lastAccessMap ip with
  | none =>
      refine ⟨by simp [CheckRateLimit, hl], ?_, ?_, ?_⟩
      · intro _
        simp [CheckRateLimit, hl]
      · intro hfalse
        simp [CheckRateLimit, hl] at hfalse
      · intro hfalse
        simp [CheckRateLimit, hl] at hfalse
  | some t =>
      by_cases hlt : now - t < cooldownSeconds
      · refine ⟨?_, ?_, ?_, ?_⟩
        · simp only [CheckRateLimit, hl, if_pos hlt]
          constructor
          · intro hcontra
            exact absurd hcontra (by simp)
          · rintro (hnone | ⟨t', ht', hge⟩)
            · exact absurd hnone (by simp)
            · cases ht'
              omega
        · intro htrue
          simp [CheckRateLimit, hl, if_pos hlt] at htrue
        · intro _
          simp [CheckRateLimit, hl, if_pos hlt]
        · intro _ now' t' ht' hge
          cases ht'
          have hnlt : ¬ now' - t < cooldownSeconds := by omega
          have hst : (CheckRateLimit now ip st).2 = st := by
            simp [CheckRateLimit, hl, if_pos hlt]
          rw [hst]
          simp [CheckRateLimit, hl, if_neg hnlt]
      · refine ⟨?_, ?_, ?_, ?_⟩
        · simp only [CheckRateLimit, hl, if_neg hlt]
          constructor
          · intro _
            exact Or.inr ⟨t, rfl, by omega⟩
          · intro _
            trivial
        · intro _
          simp [CheckRateLimit, hl, if_neg hlt]
        · intro hfalse
          simp [CheckRateLimit, hl, if_neg hlt] at hfalse
        · intro hfalse
          simp [CheckRateLimit, hl, if_neg hlt] at hfalse

/-- C6 witness: concrete run — an entry recorded at time 0 denies a call
at time 3 and leaves the state unchanged; the same identity is admitted
at time 12. -/
theorem C6_rate_limiter_admission_witness :
    (CheckRateLimit 3 "1.2.3.4"
        { sessions := [], lastAccessMap := [("1.2.3.4", 0)], fs := [] }).1 = false ∧
    (CheckRateLimit 12 "1.2.3.4"
        (CheckRateLimit 3 "1.2.3.4"
          { sessions := [], lastAccessMap := [("1.2.3.4", 0)], fs := [] }).2).1 = true := by
  refine ⟨by decide, ?_⟩
  exact (C6_rate_limiter_admission 3 "1.2.3.4"
      { sessions := [], lastAccessMap := [("1.2.3.4", 0)], fs := [] }).2.2.2
    (by decide) 12 0 (by decide) (by decide)

/-! ### C9 — missing vs unknown session id -/

/-- C9 counterexample: a transfer (and a speed lookup) with a missing
`session_id` answers 400 Bad Request, not the 404 the claim requires, so
missing and unknown ids are *not* reported the same way. -/
theorem C9_counterexample :
    (DownloadData "" 1 { sessions := [], lastAccessMap := [], fs := [] }).1 =
      DataResult.badRequest ∧
    (DownloadData "" 1 { sessions := [], lastAccessMap := [], fs := [] }).1.status ≠ 404 ∧
    (GetSpeed "" { sessions := [], lastAccessMap := [], fs := [] }).1 =
      SpeedResult.badRequest ∧
    (GetSpeed "" { sessions := [], lastAccessMap := [], fs := [] }).1.status ≠ 404 := by
  decide

/-- C9 amended: a transfer or speed request with a nonempty `session_id`
that matches no session fails with 404 Not Found, while a missing
(empty) `session_id` fails with 400 Bad Request; neither mutates the
state. -/
theorem C9_amended_lookup_errors (sid : String) (dur : ℚ) (st : HandlerState)
    (hne : sid ≠ "") (hmiss : lookupA st.sessions sid = none) :
    DownloadData sid dur st = (.notFound, st) ∧
    (DownloadData sid dur st).1.status = 404 ∧
    GetSpeed sid st = (.notFound, st) ∧
    (GetSpeed sid st).1.status = 404 ∧
    DownloadData "" dur st = (.badRequest, st) ∧
    (DownloadData "" dur st).1.status = 400 ∧
    GetSpeed "" st = (.badRequest, st) ∧
    (GetSpeed "" st).1.status = 400 := by
  refine ⟨?_, ?_, ?_, ?_, ?_, ?_, ?_, ?_⟩ <;>
    simp [DownloadData, GetSpeed, hne, hmiss, DataResult.status, SpeedResult.status]

/-- C9 witness: the amended theorem applied to the unknown id `"x"` over
the empty handler state. -/
theorem C9_amended_lookup_errors_witness :
    ("x" : String) ≠ "" ∧
    lookupA (HandlerState.mk [] [] []).sessions "x" = none ∧
    (DownloadData "x" 1 (HandlerState.mk [] [] [])).1.status = 404 ∧
    (GetSpeed "x" (HandlerState.mk [] [] [])).1.status = 404 := by
  refine ⟨by decide, by decide, ?_, ?_⟩
  · exact (C9_amended_lookup_errors "x" 1 (HandlerState.mk [] [] [])
      (by decide) (by decide)).2.1
  · exact (C9_amended_lookup_errors "x" 1 (HandlerState.mk [] [] [])
      (by decide) (by decide)).2.2.2.1

/-! ### C2 — the speed write and its formula -/

/-- C2 counterexample: a transfer whose measured duration is zero still
performs the speed write, storing `+Inf` in the session — the write is
not skipped. -/
theorem C2_counterexample :
    (DownloadData "s" 0 exState).1 = DataResult.ok [7] ∧
    lookupA (DownloadData "s" 0 exState).2.sessions "s" =
      some { exSession with downloadSpeedMbps := FloatVal.posInf } := by
  decide

/-- C2 amended: a served transfer always writes
`(fileSize * 8) / (duration * 1024 * 1024)` Mbps into the session; for a
positive duration that value is the finite quotient of the claim's
formula, but for a zero duration the write still happens and stores
`+Inf` (or `NaN` for an empty artifact) — it is not skipped. -/
theorem C2_amended_speed_write (sid : String) (dur : ℚ) (st : HandlerState)
    (sess : Session) (content : List ℕ) (hne : sid ≠ "")
    (hs : lookupA st.sessions sid = some sess)
    (hf : lookupA st.fs sess.filePath = some content) :
    lookupA (DownloadData sid dur st).2.sessions sid =
      some { sess with downloadSpeedMbps := computeSpeed sess.fileSize dur } ∧
    (dur ≠ 0 → computeSpeed sess.fileSize dur =
      .finite ((sess.fileSize * 8) / (dur * 1024 * 1024))) ∧
    (dur = 0 → sess.fileSize ≠ 0 → computeSpeed sess.fileSize dur = .posInf) ∧
    (dur = 0 → sess.fileSize = 0 → computeSpeed sess.fileSize dur = .nan) := by
  refine ⟨?_, ?_, ?_, ?_⟩
  · simp [DownloadData, hne, hs, hf, lookupA_insertA_self]
  · intro hdur
    simp [computeSpeed, hdur]
  · intro hdur hsz
    simp [computeSpeed, hdur, hsz]
  · intro hdur hsz
    simp [computeSpeed, hdur, hsz]

/-- C2 witness: the amended theorem applied to `exState` with a
2-second transfer, whose written speed is `8 / (2 * 1024 * 1024)` Mbps. -/
theorem C2_amended_speed_write_witness :
    lookupA exState.sessions "s" = some exSession ∧
    lookupA exState.fs exSession.filePath = some [7] ∧
    lookupA (DownloadData "s" 2 exState).2.sessions "s" =
      some { exSession with downloadSpeedMbps := computeSpeed exSession.fileSize 2 } := by
  refine ⟨by decide, by decide, ?_⟩
  exact (C2_amended_speed_write "s" 2 exState exSession [7]
      (by decide) (by decide) (by decide)).1

/-! ### C1 — speed retrieval after successful verification -/

/-- Characterization of a successful `VerifyDownload`: the session was
present, the digests matched, removal succeeded, and the resulting state
has both the artifact and the session entry erased. -/
theorem VerifyDownload_success_elim (removeOk : String → Bool)
    (req : DownloadVerifyRequest) (st : HandlerState)
    (h : (VerifyDownload removeOk (some req) st).1 = .success) :
    ∃ sess, lookupA st.sessions req.sessionID = some sess ∧
      req.computedHash = sess.expectedHash ∧ removeOk sess.filePath = true ∧
      (VerifyDownload removeOk (some req) st).2 =
        { st with fs := eraseA st.fs sess.filePath,
                  sessions := eraseA st.sessions req.sessionID } := by
  cases hl : lookupA st.sessions req.sessionID with
  | none =>
      exfalso
      simp [VerifyDownload, hl] at h
  | some sess =>
      by_cases hm : req.computedHash = sess.expectedHash
      · by_cases hr : removeOk sess.filePath = true
        · exact ⟨sess, rfl, hm, hr, by simp [VerifyDownload, hl, hm, hr]⟩
        · exfalso
          simp [VerifyDownload, hl, hm, hr] at h
      · exfalso
        simp [VerifyDownload, hl, hm] at h

/-- C1 counterexample: run the full round-trip on `exState` —
transfer (1 s), verify with the correct digest (removal succeeds,
status success) — and the subsequent speed lookup answers Not Found
instead of the previously measured value: the session entry was removed
together with the artifact. -/
theorem C1_counterexample :
    (DownloadData "s" 1 exState).1 = DataResult.ok [7] ∧
    (VerifyDownload (fun _ => true) (some ⟨"s", "h"⟩)
        (DownloadData "s" 1 exState).2).1 = VerifyResult.success ∧
    (GetSpeed "s"
        (VerifyDownload (fun _ => true) (some ⟨"s", "h"⟩)
          (DownloadData "s" 1 exState).2).2).1 = SpeedResult.notFound := by
  decide

/-- C1 amended: a successful verify removes the Session entry itself, so
a subsequent speed lookup with that session id fails with Not Found; the
measured speed is retrievable exactly as long as the Session entry
exists (the lookup never touches the artifact, so it survives artifact
deletion alone). -/
theorem C1_amended_speed_after_verify (removeOk : String → Bool)
    (req : DownloadVerifyRequest) (st : HandlerState)
    (hne : req.sessionID ≠ "")
    (hsucc : (VerifyDownload removeOk (some req) st).1 = .success) :
    (GetSpeed req.sessionID (VerifyDownload removeOk (some req) st).2).1 =
      SpeedResult.notFound ∧
    (∀ (st' : HandlerState) (sess : Session),
        lookupA st'.sessions req.sessionID = some sess →
        (GetSpeed req.sessionID st').1 =
          SpeedResult.ok ⟨req.sessionID, sess.downloadSpeedMbps⟩) := by
  obtain ⟨sess, hl, hm, hr, hst⟩ := VerifyDownload_success_elim removeOk req st hsucc
  refine ⟨?_, ?_⟩
  · rw [hst]
    simp [GetSpeed, hne, lookupA_eraseA_self]
  · intro st' sess' hl'
    simp [GetSpeed, hne, hl']

/-- C1 witness: the amended theorem applied to the verified `exState`
round-trip. -/
theorem C1_amended_speed_after_verify_witness :
    ("s" : String) ≠ "" ∧
    (VerifyDownload (fun _ => true) (some ⟨"s", "h"⟩) exState).1 = VerifyResult.success ∧
    (GetSpeed "s" (VerifyDownload (fun _ => true) (some ⟨"s", "h"⟩) exState).2).1 =
      SpeedResult.notFound := by
  refine ⟨by decide, by decide, ?_⟩
  exact (C1_amended_speed_after_verify (fun _ => true) ⟨"s", "h"⟩ exState
      (by decide) (by decide)).1

/-! ### C3 — deletion/removal coupling on digest match -/

/-- C3: on a digest match, artifact deletion and session removal are
coupled — when `os.Remove` succeeds the artifact and then the session
entry are both removed and the call succeeds; when it fails the handler
answers 500 and the state (session entry included) is left untouched for
a retry or the reaper. -/
theorem C3_verify_deletion_coupling (removeOk : String → Bool)
    (req : DownloadVerifyRequest) (st : HandlerState) (sess : Session)
    (hs : lookupA st.sessions req.sessionID = some sess)
    (hmatch : req.computedHash = sess.expectedHash) :
    (removeOk sess.filePath = true →
       VerifyDownload removeOk (some req) st =
         (.success,
          { st with fs := eraseA st.fs sess.filePath,
                    sessions := eraseA st.sessions req.sessionID })) ∧
    (removeOk sess.filePath = false →
       VerifyDownload removeOk (some req) st = (.removalFailed, st) ∧
       (VerifyDownload removeOk (some req) st).1.status = 500) := by
  refine ⟨?_, ?_⟩
  · intro hr
    simp [VerifyDownload, hs, hmatch, hr]
  · intro hr
    have hv : VerifyDownload removeOk (some req) st = (.removalFailed, st) := by
      simp [VerifyDownload, hs, hmatch, hr]
    exact ⟨hv, by simp [hv, VerifyResult.status]⟩

/-- C3 witness: deletion of `exSession`'s artifact failing leaves the
whole state unchanged and answers 500. -/
theorem C3_verify_deletion_coupling_witness :
    lookupA exState.sessions "s" = some exSession ∧
    ("h" : String) = exSession.expectedHash ∧
    VerifyDownload (fun _ => false) (some ⟨"s", "h"⟩) exState =
      (VerifyResult.removalFailed, exState) := by
  refine ⟨by decide, by decide, ?_⟩
  exact ((C3_verify_deletion_coupling (fun _ => false) ⟨"s", "h"⟩ exState exSession
      (by decide) (by decide)).2 rfl).1

/-! ### C8 — digest mismatch is mutation-free -/

/-- C8: a verify whose digest differs from the expected one answers
`Hash mismatch` (400) and leaves the state exactly as it was, and the
artifact is still retrievable by a subsequent transfer of the same
session. -/
theorem C8_verify_mismatch_no_mutation (removeOk : String → Bool)
    (req : DownloadVerifyRequest) (st : HandlerState) (sess : Session)
    (content : List ℕ) (dur : ℚ)
    (hne : req.sessionID ≠ "")
    (hs : lookupA st.sessions req.sessionID = some sess)
    (hmm : req.computedHash ≠ sess.expectedHash)
    (hf : lookupA st.fs sess.filePath = some content) :
    VerifyDownload removeOk (some req) st = (.hashMismatch, st) ∧
    (VerifyDownload removeOk (some req) st).1.status = 400 ∧
    (DownloadData req.sessionID dur
        (VerifyDownload removeOk (some req) st).2).1 = .ok content := by
  have hv : VerifyDownload removeOk (some req) st = (.hashMismatch, st) := by
    simp [VerifyDownload, hs, hmm]
  refine ⟨hv, by simp [hv, VerifyResult.status], ?_⟩
  rw [hv]
  simp [DownloadData, hne, hs, hf]

/-- C8 witness: a wrong digest against `exState` mutates nothing and the
artifact still transfers. -/
theorem C8_verify_mismatch_no_mutation_witness :
    ("s" : String) ≠ "" ∧
    lookupA exState.sessions "s" = some exSession ∧
    ("nope" : String) ≠ exSession.expectedHash ∧
    VerifyDownload (fun _ => true) (some ⟨"s", "nope"⟩) exState =
      (VerifyResult.hashMismatch, exState) := by
  refine ⟨by decide, by decide, by decide, ?_⟩
  exact (C8_verify_mismatch_no_mutation (fun _ => true) ⟨"s", "nope"⟩ exState
      exSession [7] 1 (by decide) (by decide) (by decide) (by decide)).1

/-! ### C10 — transfers never consume the session -/

/-- C10: a served transfer streams the artifact and mutates only the
session's measured speed — the session entry stays in the store with its
path, digest, algorithm, size and creation time intact, other sessions
and the filesystem are untouched, and the same session can be
transferred again. -/
theorem C10_transfer_preserves_session (sid : String) (dur dur' : ℚ)
    (st : HandlerState) (sess : Session) (content : List ℕ)
    (hne : sid ≠ "") (hs : lookupA st.sessions sid = some sess)
    (hf : lookupA st.fs sess.filePath = some content) :
    (DownloadData sid dur st).1 = .ok content ∧
    (DownloadData sid dur st).2.fs = st.fs ∧
    (DownloadData sid dur st).2.lastAccessMap = st.lastAccessMap ∧
    lookupA (DownloadData sid dur st).2.sessions sid =
      some { filePath := sess.filePath, expectedHash := sess.expectedHash,
             hashAlgorithm := sess.hashAlgorithm, fileSize := sess.fileSize,
             createdAt := sess.createdAt,
             downloadSpeedMbps := computeSpeed sess.fileSize dur } ∧
    (∀ sid', sid' ≠ sid →
        lookupA (DownloadData sid dur st).2.sessions sid' =
          lookupA st.sessions sid') ∧
    (DownloadData sid dur' (DownloadData sid dur st).2).1 = .ok content := by
  have hd : DownloadData sid dur st =
      (.ok content,
       { st with sessions := insertA st.sessions sid { sess with downloadSpeedMbps := computeSpeed sess.fileSize dur } }) := by
    simp [DownloadData, hne, hs, hf]
  refine ⟨by simp [hd], by simp [hd], by simp [hd], ?_, ?_, ?_⟩
  · rw [hd]
    simp [lookupA_insertA_self]
  · intro sid' hne'
    rw [hd]
    exact lookupA_insertA_ne st.sessions sid sid' _ (fun hcc => hne' hcc.symm)
  · rw [hd]
    simp [DownloadData, hne, lookupA_insertA_self, hf]

/-- C10 witness: `exState`'s session transfers twice, each time serving
the same 1-byte artifact. -/
theorem C10_transfer_preserves_session_witness :
    ("s" : String) ≠ "" ∧
    lookupA exState.sessions "s" = some exSession ∧
    lookupA exState.fs exSession.filePath = some [7] ∧
    (DownloadData "s" 2 (DownloadData "s" 1 exState).2).1 = DataResult.ok [7] := by
  refine ⟨by decide, by decide, by decide, ?_⟩
  exact (C10_transfer_preserves_session "s" 1 2 exState exSession [7]
      (by decide) (by decide) (by decide)).2.2.2.2.2

/-! ### C5 — InvalidInput failures and the rate-limiter map -/

/-- C5 counterexample: an admitted `initiate` with the disallowed size
selector 7 fails with Invalid size and registers no session and no
artifact, yet the rate limiter's timestamp map *was* mutated: the
admission check ran first and stamped the client. -/
theorem C5_counterexample :
    (InitDownload (fun _ => "") 0 "1.2.3.4" (some ⟨7⟩) "u" (fun _ => 0)
        { sessions := [], lastAccessMap := [], fs := [] }).1 =
      InitResult.invalidSize ∧
    (InitDownload (fun _ => "") 0 "1.2.3.4" (some ⟨7⟩) "u" (fun _ => 0)
        { sessions := [], lastAccessMap := [], fs := [] }).2.sessions = [] ∧
    (InitDownload (fun _ => "") 0 "1.2.3.4" (some ⟨7⟩) "u" (fun _ => 0)
        { sessions := [], lastAccessMap := [], fs := [] }).2.fs = [] ∧
    (InitDownload (fun _ => "") 0 "1.2.3.4" (some ⟨7⟩) "u" (fun _ => 0)
        { sessions := [], lastAccessMap := [], fs := [] }).2.lastAccessMap =
      [("1.2.3.4", 0)] := by
  decide

/-- C5 amended: an admitted `initiate` that then fails with InvalidInput
(malformed body or bad size selector) is reported immediately and
creates no artifact and no session, but the rate limiter's per-client
timestamp map has already been stamped with `now` by the admission
check that runs before validation. -/
theorem C5_invalid_input_state (sha256Hex : List ℕ → String) (now : ℤ)
    (ip sid : String) (rand : ℕ → ℕ) (st : HandlerState)
    (body : Option DownloadInitRequest)
    (hadm : (CheckRateLimit now ip st).1 = true)
    (hbad : body = none ∨
      ∃ req, body = some req ∧ allowedSizes req.sizeMB = none) :
    ((InitDownload sha256Hex now ip body sid rand st).1 = .badRequest ∨
     (InitDownload sha256Hex now ip body sid rand st).1 = .invalidSize) ∧
    (InitDownload sha256Hex now ip body sid rand st).2.sessions = st.sessions ∧
    (InitDownload sha256Hex now ip body sid rand st).2.fs = st.fs ∧
    (InitDownload sha256Hex now ip body sid rand st).2.lastAccessMap =
      insertA st.lastAccessMap ip now := by
  have hst : (CheckRateLimit now ip st).2 =
      { st with lastAccessMap := insertA st.lastAccessMap ip now } := by
    unfold CheckRateLimit at hadm ⊢
    cases hl : lookupA st.lastAccessMap ip with
    | none => simp
    | some t =>
        rw [hl] at hadm
        by_cases hlt : now - t < cooldownSeconds
        · simp [hlt] at hadm
        · simp [hlt]
  rcases hbad with hnone | ⟨req, hreq, hsize⟩
  · subst hnone
    have : InitDownload sha256Hex now ip none sid rand st =
        (.badRequest, (CheckRateLimit now ip st).2) := by
      simp [InitDownload, hadm]
    rw [this, hst]
    simp
  · subst hreq
    have : InitDownload sha256Hex now ip (some req) sid rand st =
        (.invalidSize, (CheckRateLimit now ip st).2) := by
      simp [InitDownload, hadm, hsize]
    rw [this, hst]
    simp

/-- C5 witness: the amended theorem applied to a malformed body over the
empty state. -/
theorem C5_invalid_input_state_witness :
    (CheckRateLimit 0 "1.2.3.4" { sessions := [], lastAccessMap := [], fs := [] }).1 = true ∧
    (InitDownload (fun _ => "") 0 "1.2.3.4" none "u" (fun _ => 0)
        { sessions := [], lastAccessMap := [], fs := [] }).2.lastAccessMap =
      insertA [] "1.2.3.4" 0 := by
  refine ⟨by decide, ?_⟩
  exact (C5_invalid_input_state (fun _ => "") 0 "1.2.3.4" "u" (fun _ => 0)
      { sessions := [], lastAccessMap := [], fs := [] } none
      (by decide) (Or.inl rfl)).2.2.2

/-! ### C7 — initiate generates artifact of exact size with its hash -/

/-- C7: for an admitted request with an allowed size selector,
`InitDownload` succeeds with a session whose artifact holds exactly
`selector * 1024 * 1024` bytes, written by the chunked generator, and
whose expected digest is the SHA-256 of exactly those bytes, reported
with algorithm `"sha256"`; both the artifact and the registered session
record the same content and digest. -/
theorem C7_init_artifact_exact (sha256Hex : List ℕ → String) (now : ℤ)
    (ip sid : String) (rand : ℕ → ℕ) (st : HandlerState)
    (req : DownloadInitRequest) (size : ℤ)
    (hsize : allowedSizes req.sizeMB = some size)
    (hadm : (CheckRateLimit now ip st).1 = true) :
    size = req.sizeMB * 1024 * 1024 ∧
    (generateRandomFile rand size.toNat).length = size.toNat ∧
    (InitDownload sha256Hex now ip (some req) sid rand st).1 =
      .ok { sessionID := sid, size := size, hashAlgorithm := "sha256",
            expectedHash := sha256Hex (generateRandomFile rand size.toNat) } ∧
    lookupA (InitDownload sha256Hex now ip (some req) sid rand st).2.fs
        ("tmpdata/" ++ sid ++ ".bin") =
      some (generateRandomFile rand size.toNat) ∧
    lookupA (InitDownload sha256Hex now ip (some req) sid rand st).2.sessions sid =
      some { filePath := "tmpdata/" ++ sid ++ ".bin",
             expectedHash := sha256Hex (generateRandomFile rand size.toNat),
             hashAlgorithm := "sha256", fileSize := size, createdAt := now,
             downloadSpeedMbps := .finite 0 } := by
  refine ⟨allowedSizes_spec _ _ hsize, generateRandomFile_length rand size.toNat,
    ?_, ?_, ?_⟩ <;>
  simp [InitDownload, hadm, hsize, computeFileHash, lookupA_insertA_self]

/-- C7 witness: the theorem at the 5 MB selector over the empty state,
whose artifact is 5 · 1024 · 1024 bytes long. -/
theorem C7_init_artifact_exact_witness :
    allowedSizes 5 = some 5242880 ∧
    (CheckRateLimit 0 "1.2.3.4" { sessions := [], lastAccessMap := [], fs := [] }).1 = true ∧
    (generateRandomFile (fun _ => 0) (5242880 : ℤ).toNat).length = (5242880 : ℤ).toNat := by
  refine ⟨by decide, by decide, ?_⟩
  exact (C7_init_artifact_exact (fun _ => "H") 0 "1.2.3.4" "u" (fun _ => 0)
      { sessions := [], lastAccessMap := [], fs := [] } ⟨5⟩ 5242880
      (by decide) (by decide)).2.1

/-! ### C4 — reaper sweep under artifact-deletion failure -/

/-- C4 counterexample: a sweep at time 4000 over `exState` (whose only
session is an hour stale) with failing artifact deletion removes the
session entry from the store anyway — the claim's "its Session entry
remains for a later retry" is false — while the artifact stays behind. -/
theorem C4_counterexample :
    lookupA (cleanupSweep 4000 (fun _ => false) exState).sessions "s" = none ∧
    (cleanupSweep 4000 (fun _ => false) exState).fs = [("tmpdata/s.bin", [7])] := by
  decide

theorem cleanupStep_lastAccessMap (now : ℤ) (ro : String → Bool)
    (acc : HandlerState) (e : String × Session) :
    (cleanupStep now ro acc e).lastAccessMap = acc.lastAccessMap := by
  unfold cleanupStep
  split <;> rfl

theorem cleanupFold_lastAccessMap (now : ℤ) (ro : String → Bool) :
    ∀ (l : List (String × Session)) (acc : HandlerState),
      (l.foldl (cleanupStep now ro) acc).lastAccessMap = acc.lastAccessMap := by
  intro l
  induction l with
  | nil =>
      intro acc
      rfl
  | cons e tl ih =>
      intro acc
      rw [List.foldl_cons, ih, cleanupStep_lastAccessMap]

theorem cleanupStep_sessions_none (now : ℤ) (ro : String → Bool)
    (acc : HandlerState) (e : String × Session) (sid : String)
    (h : lookupA acc.sessions sid = none) :
    lookupA (cleanupStep now ro acc e).sessions sid = none := by
  unfold cleanupStep
  split
  · by_cases he : e.1 = sid
    · subst he
      simp [lookupA_eraseA_self]
    · simp [lookupA_eraseA_ne _ _ _ he, h]
  · exact h

theorem cleanupFold_sessions_none (now : ℤ) (ro : String → Bool) :
    ∀ (l : List (String × Session)) (acc : HandlerState) (sid : String),
      lookupA acc.sessions sid = none →
      lookupA (l.foldl (cleanupStep now ro) acc).sessions sid = none := by
  intro l
  induction l with
  | nil =>
      intro acc sid h
      exact h
  | cons e tl ih =>
      intro acc sid h
      rw [List.foldl_cons]
      exact ih _ sid (cleanupStep_sessions_none now ro acc e sid h)

theorem cleanupFold_removes_eligible (now : ℤ) (ro : String → Bool) :
    ∀ (l : List (String × Session)) (acc : HandlerState) (sid : String)
      (sess : Session), (sid, sess) ∈ l →
      now - sess.createdAt > maxAgeSeconds →
      lookupA (l.foldl (cleanupStep now ro) acc).sessions sid = none := by
  intro l
  induction l with
  | nil =>
      intro acc sid sess hmem
      simp at hmem
  | cons e tl ih =>
      intro acc sid sess hmem helig
      rw [List.foldl_cons]
      rcases List.mem_cons.mp hmem with heq | hmem'
      · cases heq
        have hstep : lookupA (cleanupStep now ro acc (sid, sess)).sessions sid = none := by
          simp [cleanupStep, helig, lookupA_eraseA_self]
        exact cleanupFold_sessions_none now ro tl _ sid hstep
      · exact ih _ sid sess hmem' helig

theorem cleanupFold_preserves_ineligible (now : ℤ) (ro : String → Bool) :
    ∀ (l : List (String × Session)) (acc : HandlerState) (sid : String),
      (∀ sess, (sid, sess) ∈ l → ¬(now - sess.createdAt > maxAgeSeconds)) →
      lookupA (l.foldl (cleanupStep now ro) acc).sessions sid =
        lookupA acc.sessions sid := by
  intro l
  induction l with
  | nil =>
      intro acc sid _
      rfl
  | cons e tl ih =>
      intro acc sid hne
      obtain ⟨k, s⟩ := e
      rw [List.foldl_cons]
      have hpres : lookupA (cleanupStep now ro acc (k, s)).sessions sid =
          lookupA acc.sessions sid := by
        by_cases he : k = sid
        · subst he
          have hinel : ¬(now - s.createdAt > maxAgeSeconds) :=
            hne s (List.mem_cons_self _ _)
          simp [cleanupStep, hinel]
        · unfold cleanupStep
          split
          · simp [lookupA_eraseA_ne _ _ _ he]
          · rfl
      rw [ih _ sid (fun sess hm => hne sess (List.mem_cons_of_mem _ hm)), hpres]

/-- C4 amended: in every reaper sweep an artifact-deletion failure is
non-fatal and does not abort the sweep — every age-eligible session is
still processed — but the failed session's entry does NOT remain in the
store: the sweep removes the Session entry regardless of whether its
artifact deletion succeeded, so there is no later retry for it.
Ineligible sessions and the rate-limit map are untouched. -/
theorem C4_amended_reaper_sweep (now : ℤ) (removeOk : String → Bool)
    (st : HandlerState) :
    (∀ sid sess, lookupA st.sessions sid = some sess →
        now - sess.createdAt > maxAgeSeconds →
        lookupA (cleanupSweep now removeOk st).sessions sid = none) ∧
    (∀ sid, (∀ sess, (sid, sess) ∈ st.sessions →
        ¬(now - sess.createdAt > maxAgeSeconds)) →
        lookupA (cleanupSweep now removeOk st).sessions sid =
          lookupA st.sessions sid) ∧
    (cleanupSweep now removeOk st).lastAccessMap = st.lastAccessMap := by
  refine ⟨?_, ?_, ?_⟩
  · intro sid sess hl helig
    exact cleanupFold_removes_eligible now removeOk st.sessions st sid sess
      (lookupA_some_mem _ _ _ hl) helig
  · intro sid h
    exact cleanupFold_preserves_ineligible now removeOk st.sessions st sid h
  · exact cleanupFold_lastAccessMap now removeOk st.sessions st

/-- A fresh session created at time 3900 alongside the stale `exSession`. -/
def freshSession : Session :=
  { filePath := "tmpdata/b.bin", expectedHash := "h2", hashAlgorithm := "sha256",
    fileSize := 1, createdAt := 3900, downloadSpeedMbps := .finite 0 }

/-- A store holding the stale session `"a"` and the fresh session `"b"`. -/
def mixedState : HandlerState :=
  { sessions := [("a", exSession), ("b", freshSession)], lastAccessMap := [],
    fs := [("tmpdata/s.bin", [7]), ("tmpdata/b.bin", [9])] }

/-- C4 witness: at time 4000 with every artifact deletion failing, the
stale session `"a"` is removed from the store while the fresh session
`"b"` survives unchanged. -/
theorem C4_amended_reaper_sweep_witness :
    lookupA mixedState.sessions "a" = some exSession ∧
    (4000 : ℤ) - exSession.createdAt > maxAgeSeconds ∧
    lookupA (cleanupSweep 4000 (fun _ => false) mixedState).sessions "a" = none ∧
    lookupA (cleanupSweep 4000 (fun _ => false) mixedState).sessions "b" =
      lookupA mixedState.sessions "b" := by
  refine ⟨by decide, by decide, ?_, ?_⟩
  · exact (C4_amended_reaper_sweep 4000 (fun _ => false) mixedState).1 "a"
      exSession (by decide) (by decide)
  · refine (C4_amended_reaper_sweep 4000 (fun _ => false) mixedState).2.1 "b" ?_
    intro sess hm
    simp [mixedState] at hm
    subst hm
    decide

end SpeedTestGo
